import Mathlib

/-!
Shallow embedding of `drivers/cpufreq/hisi/cluster_plug.c` (cluster-plug
CPU hotplug driver, built with `LITTLE_BIG` and `FIGHT_INTERFERENCE`
defined, so cpus 0..3 are the little cluster and cpus 4..7 the big one).

The hardware online/offline capability, the idle-time source and the
work-queue facility are external collaborators; their logical effect is
embedded directly: the online/offline bit per cpu is a function
`Nat → Bool`, per-cpu load samples are an oracle `Nat → Nat`, and the
work queue is a count of pending work items (`flush`+`cancel` zeroes it,
`queue_delayed_work`/`queue_work` adds one, executing the work function
consumes one).
-/

namespace ClusterPlug

/-- N_BIG_CPUS in the source. -/
def nBigCpus : Nat := 4

/-- N_LITTLE_CPUS in the source. -/
def nLittleCpus : Nat := 4

/-- The present cpus, 0..7, in the order `for_each_present_cpu` visits them. -/
def present_cpus : List Nat := [0, 1, 2, 3, 4, 5, 6, 7]

/-- is_big_cpu: with LITTLE_BIG defined, `cpu >= N_LITTLE_CPUS`. -/
def is_big_cpu (cpu : Nat) : Bool := nLittleCpus ≤ cpu

/-- is_little_cpu: with LITTLE_BIG defined, `cpu < N_LITTLE_CPUS`. -/
def is_little_cpu (cpu : Nat) : Bool := cpu < nLittleCpus

/-- The tunable module parameters (module_param declarations). -/
structure Config where
  load_threshold_down : Nat
  load_threshold_up : Nat
  sampling_time : Nat
  vote_threshold_down : Nat
  vote_threshold_up : Nat
  max_cores_screenoff : Nat
deriving DecidableEq

/-- The DEF_* default values of the module parameters. -/
def defaultConfig : Config :=
  { load_threshold_down := 20
    load_threshold_up := 80
    sampling_time := 50
    vote_threshold_down := 5
    vote_threshold_up := 2
    max_cores_screenoff := 1 }

/-- The vote counters `vote_up`/`vote_down`.  They are `unsigned int` in the
source with guarded decrements; embedded as `Int` so that non-negativity is a
provable property rather than a triviality of the carrier type. -/
structure VoteState where
  up : Int
  down : Int
deriving DecidableEq

/-- The decision the voting step takes in `cluster_plug_perform`. -/
inductive Action where
  | none
  | addCore
  | removeCore
deriving DecidableEq

/-- The vote-accumulation stage of `cluster_plug_perform`: increment the vote
matching the load band and decrement the opposite vote with a floor of 0;
loads inside the dead band change nothing. -/
def vote_update (cfg : Config) (v : VoteState) (load : Nat) : VoteState :=
  if load > cfg.load_threshold_up then
    { up := v.up + 1, down := if v.down > 0 then v.down - 1 else v.down }
  else if load < cfg.load_threshold_down then
    { up := if v.up > 0 then v.up - 1 else v.up, down := v.down + 1 }
  else v

/-- The decision stage of `cluster_plug_perform`: after the vote update, fire
`addCore` when `vote_up > vote_threshold_up` (checked first), else
`removeCore` when `vote_down > vote_threshold_down`, resetting both counters
to 0 whenever an action fires. -/
def observe (cfg : Config) (v : VoteState) (load : Nat) : VoteState × Action :=
  let v1 := vote_update cfg v load
  if v1.up > (cfg.vote_threshold_up : Int) then (⟨0, 0⟩, Action.addCore)
  else if v1.down > (cfg.vote_threshold_down : Int) then (⟨0, 0⟩, Action.removeCore)
  else (v1, Action.none)

/-- Iterated `observe` over a list of load samples. -/
def runObserve (cfg : Config) (v : VoteState) : List Nat → VoteState
  | [] => v
  | l :: rest => runObserve cfg (observe cfg v l).1 rest

/-- switch_cpu: under the per-cpu device lock, bring the cpu to the requested
state (cpu_up/cpu_down are conditional in the source, but the logical result
is that the cpu's online bit equals `!offline`). -/
def switch_cpu (o : Nat → Bool) (cpu : Nat) (offline : Bool) : Nat → Bool :=
  fun c => if c = cpu then !offline else o c

/-- The loop body of optimized_online_all: bring each offline cpu up. -/
def online_all_go : List Nat → (Nat → Bool) → (Nat → Bool)
  | [], o => o
  | c :: rest, o => online_all_go rest (if !(o c) then switch_cpu o c false else o)

/-- optimized_online_all: walk cpus 7 down to 0 and online every offline one. -/
def optimized_online_all (o : Nat → Bool) : Nat → Bool :=
  online_all_go [7, 6, 5, 4, 3, 2, 1, 0] o

/-- The scan order shared by online_one_cpu and offline_one_cpu: with
LITTLE_BIG the loop runs `for (cpu_num = 7-1; cpu_num >= 0+1; cpu_num--)`,
so cpus 0 and 7 (the ones with cpufreq nodes) are never touched. -/
def cpu_scan_order : List Nat := [6, 5, 4, 3, 2, 1]

/-- The loop body of online_one_cpu: online the first offline cpu, then stop. -/
def online_one_go : List Nat → (Nat → Bool) → (Nat → Bool)
  | [], o => o
  | c :: rest, o => if !(o c) then switch_cpu o c false else online_one_go rest o

/-- online_one_cpu: walk the scan order and online the first offline cpu. -/
def online_one_cpu (o : Nat → Bool) : Nat → Bool :=
  online_one_go cpu_scan_order o

/-- The loop body of offline_one_cpu: offline the first online cpu, then stop. -/
def offline_one_go : List Nat → (Nat → Bool) → (Nat → Bool)
  | [], o => o
  | c :: rest, o => if o c then switch_cpu o c true else offline_one_go rest o

/-- offline_one_cpu: walk the (same) scan order and offline the first online
cpu. -/
def offline_one_cpu (o : Nat → Bool) : Nat → Bool :=
  offline_one_go cpu_scan_order o

/-- The module-level mutable state of cluster_plug, together with the logical
per-cpu online bits and the number of pending work items of its work queue. -/
structure State where
  active : Bool
  workqueue_suspended : Bool
  screen_on : Bool
  big_cluster_enabled : Bool
  little_cluster_enabled : Bool
  low_power_mode : Bool
  screen_off_power_mode : Bool
  online_all : Bool
  vote_up : Int
  vote_down : Int
  online : Nat → Bool
  pending : Nat

/-- The state at module load: the static initializers of the source
(DEF_ENABLED_BY_DEFAULT = false, workqueue_suspended = true, screen_on = true,
both clusters enabled, no modes, zero votes), all cpus online at boot, and no
work queued (cluster_plug_init only registers the notifier and the work). -/
def initState : State :=
  { active := false
    workqueue_suspended := true
    screen_on := true
    big_cluster_enabled := true
    little_cluster_enabled := true
    low_power_mode := false
    screen_off_power_mode := false
    online_all := false
    vote_up := 0
    vote_down := 0
    online := fun _ => true
    pending := 0 }

/-- The loop body of disable_big_cluster: offline every online big cpu. -/
def disable_big_go : List Nat → (Nat → Bool) → (Nat → Bool)
  | [], o => o
  | c :: rest, o =>
    if is_big_cpu c && o c then disable_big_go rest (switch_cpu o c true)
    else disable_big_go rest o

/-- disable_big_cluster: if the big cluster is still flagged enabled, offline
every online big cpu and clear the flag; otherwise do nothing. -/
def disable_big_cluster (s : State) : State :=
  if !s.big_cluster_enabled then s
  else
    { s with
      online := disable_big_go present_cpus s.online
      big_cluster_enabled := false }

/-- The required_cpus computation of enable_little_cluster: 4, except that
with the screen off and screen_off_power_mode clear, an in-range
max_cores_screenoff (1..4) replaces it. -/
def enable_little_required (cfg : Config) (s : State) : Nat :=
  if s.screen_on = false && s.screen_off_power_mode = false then
    if 0 < cfg.max_cores_screenoff && cfg.max_cores_screenoff ≤ 4 then
      cfg.max_cores_screenoff
    else 4
  else 4

/-- The loop body of enable_little_cluster: while little cpus are still
required, online them (or count an already-online one) and decrement the
requirement; past the requirement, offline any online little cpu. -/
def enable_little_go : List Nat → Nat → (Nat → Bool) → (Nat → Bool)
  | [], _, o => o
  | c :: rest, required, o =>
    if is_little_cpu c then
      if required > 0 then
        enable_little_go rest (required - 1)
          (if !(o c) then switch_cpu o c false else o)
      else
        if o c then enable_little_go rest required (switch_cpu o c true)
        else enable_little_go rest required o
    else enable_little_go rest required o

/-- enable_little_cluster: bring exactly `required_cpus` little cpus online
(the first ones in present order), offline the surplus little cpus, and set
the little-cluster flag. -/
def enable_little_cluster (cfg : Config) (s : State) : State :=
  { s with
    online := enable_little_go present_cpus (enable_little_required cfg s) s.online
    little_cluster_enabled := true }

/-- Number of online cpus among the present ones; this is the `cpus` counter
accumulated by the loop of calculateLoad. -/
def onlineCount (o : Nat → Bool) : Nat :=
  (present_cpus.filter (fun c => o c)).length

/-- The accumulation loop of calculateLoad: per online cpu, add its sampled
load to the big or the little running sum. -/
def calc_go : List Nat → (Nat → Nat) → (Nat → Bool) → Nat × Nat → Nat × Nat
  | [], _, _, acc => acc
  | c :: rest, loads, o, acc =>
    if o c then
      if is_big_cpu c then calc_go rest loads o (acc.1 + loads c, acc.2)
      else calc_go rest loads o (acc.1, acc.2 + loads c)
    else calc_go rest loads o acc

/-- calculateLoad: sum the sampled loads of the online cpus and divide by the
number of online cpus (an unguarded division in the source). -/
def calculateLoad (loads : Nat → Nat) (o : Nat → Bool) : Nat :=
  let sums := calc_go present_cpus loads o (0, 0)
  (sums.1 + sums.2) / onlineCount o

/-- cluster_plug_perform: compute the average load, run the voting stages and
apply the fired action (if any) through online_one_cpu / offline_one_cpu. -/
def cluster_plug_perform (cfg : Config) (loads : Nat → Nat) (s : State) : State :=
  let load := calculateLoad loads s.online
  let r := observe cfg ⟨s.vote_up, s.vote_down⟩ load
  { s with
    vote_up := r.1.up
    vote_down := r.1.down
    online :=
      match r.2 with
      | Action.addCore => online_one_cpu s.online
      | Action.removeCore => offline_one_cpu s.online
      | Action.none => s.online }

/-- The online_all prologue of cluster_plug_work_fn: when the flag is set,
online every cpu and mark both clusters enabled. -/
def work_fn_online_all_stage (s : State) : State :=
  if s.online_all then
    { s with
      online := optimized_online_all s.online
      big_cluster_enabled := true
      little_cluster_enabled := true }
  else s

/-- The early-return branch of cluster_plug_work_fn for low_power_mode or
screen-off without screen_off_power_mode: enable the (bounded) little
cluster, disable the big cluster, mark the work queue suspended and do not
requeue. -/
def work_fn_suspend_branch (cfg : Config) (s : State) : State :=
  { disable_big_cluster (enable_little_cluster cfg s) with
    workqueue_suspended := true }

/-- cluster_plug_work_fn: one execution of the queued work item (consuming
it).  Run the online_all prologue; then, if active and not in online_all
mode, either perform a sampling step and requeue, or take the suspend branch
and stop; in online_all mode just requeue; if inactive, never requeue. -/
def cluster_plug_work_fn (cfg : Config) (loads : Nat → Nat) (s : State) : State :=
  let s1 := work_fn_online_all_stage { s with pending := s.pending - 1 }
  if s1.active then
    if !s1.online_all then
      if (s1.screen_on || s1.screen_off_power_mode) && !s1.low_power_mode then
        let s2 := cluster_plug_perform cfg loads s1
        { s2 with pending := s2.pending + 1, online_all := false }
      else
        work_fn_suspend_branch cfg s1
    else
      { s1 with pending := s1.pending + 1, online_all := false }
  else
    { s1 with online_all := false }

/-- cluster_plug_hotplug_suspend (LCD_EVENT_OFF_END, under the mutex): if
active, record the screen as off and, when the work queue was suspended,
restart it with one queued work item. -/
def cluster_plug_hotplug_suspend (s : State) : State :=
  if s.active then
    if s.workqueue_suspended then
      { s with
        screen_on := false
        workqueue_suspended := false
        pending := s.pending + 1 }
    else { s with screen_on := false }
  else s

/-- cluster_plug_hotplug_resume (LCD_EVENT_ON_START, under the mutex): if
active, record the screen as on and, when the work queue was suspended, set
online_all, reset the votes and restart the queue with one work item. -/
def cluster_plug_hotplug_resume (s : State) : State :=
  if s.active then
    if s.workqueue_suspended then
      { s with
        screen_on := true
        online_all := true
        vote_up := 0
        vote_down := 0
        workqueue_suspended := false
        pending := s.pending + 1 }
    else { s with screen_on := true }
  else s

/-- active_store: on a parsed value that actually toggles `active`, flush and
cancel pending work, store the flag, set online_all, clear the suspension
flag and queue one work item; a value equal to the current flag is a no-op. -/
def active_store (s : State) (value : Int) : State :=
  if (decide (value ≠ 0)) == s.active then s
  else
    { s with
      active := decide (value ≠ 0)
      online_all := true
      workqueue_suspended := false
      pending := 1 }

/-- low_power_mode_store: on a toggling value, flush and cancel pending work,
store the flag (clearing screen_off_power_mode when setting it), clear the
suspension flag and queue one work item. -/
def low_power_mode_store (s : State) (value : Int) : State :=
  if (decide (value ≠ 0)) == s.low_power_mode then s
  else
    { s with
      low_power_mode := decide (value ≠ 0)
      screen_off_power_mode :=
        if decide (value ≠ 0) then false else s.screen_off_power_mode
      workqueue_suspended := false
      pending := 1 }

/-- screen_off_power_mode_store: symmetric to low_power_mode_store, clearing
low_power_mode when setting the flag. -/
def screen_off_power_mode_store (s : State) (value : Int) : State :=
  if (decide (value ≠ 0)) == s.screen_off_power_mode then s
  else
    { s with
      screen_off_power_mode := decide (value ≠ 0)
      low_power_mode :=
        if decide (value ≠ 0) then false else s.low_power_mode
      workqueue_suspended := false
      pending := 1 }

/-- The setter installed by a plain `module_param(name, uint, 0664)`
declaration (no custom ops): the kernel's standard uint setter parses the
input and stores any parsed value unconditionally; only a parse failure is
rejected, leaving the prior value.  `Option.none` stands for a parse
failure.  Returns the new stored value and whether the write was accepted. -/
def module_param_uint_store (old : Nat) (input : Option Nat) : Nat × Bool :=
  match input with
  | Option.some v => (v, true)
  | Option.none => (old, false)

/-- A load oracle reporting 50 on every cpu (inside the default dead band). -/
def flatLoads : Nat → Nat := fun _ => 50

/-- A load oracle reporting 0 on every cpu. -/
def zeroLoads : Nat → Nat := fun _ => 0

/-- The all-online cpu map. -/
def allOnline : Nat → Bool := fun _ => true

/-- A cpu map with only cpu 0 online. -/
def onlyZeroOnline : Nat → Bool := fun c => c == 0

/-- The default parameters with max_cores_screenoff raised to 2. -/
def cfgCap2 : Config := { defaultConfig with max_cores_screenoff := 2 }

/-- A running controller in the otherwise boot-time state. -/
def enabledState : State := { initState with active := true }

/-- A running controller just after the screen went off with
screen_off_power_mode set: screen off, work queue running with one pending
tick, everything else at boot values. -/
def screenOffPowerState : State :=
  { initState with
    active := true
    screen_on := false
    screen_off_power_mode := true
    workqueue_suspended := false
    pending := 1 }

/-- A running controller with one pending tick and only cpu 0 online. -/
def mostOfflineState : State :=
  { initState with
    active := true
    workqueue_suspended := false
    pending := 1
    online := onlyZeroOnline }

/-- The states reachable from module load through executions of the work
function, the two LCD notifier paths and the three parameter-store
callbacks, for arbitrary parameter values and load samples. -/
inductive Reachable : State → Prop where
  | init : Reachable initState
  | tick (cfg : Config) (loads : Nat → Nat) (s : State) :
      Reachable s → Reachable (cluster_plug_work_fn cfg loads s)
  | lcd_off (s : State) :
      Reachable s → Reachable (cluster_plug_hotplug_suspend s)
  | lcd_on (s : State) :
      Reachable s → Reachable (cluster_plug_hotplug_resume s)
  | set_active (v : Int) (s : State) :
      Reachable s → Reachable (active_store s v)
  | set_low_power (v : Int) (s : State) :
      Reachable s → Reachable (low_power_mode_store s v)
  | set_screen_off_power (v : Int) (s : State) :
      Reachable s → Reachable (screen_off_power_mode_store s v)

end ClusterPlug

namespace ClusterPlug

lemma switch_cpu_ne (o : Nat → Bool) (cpu : Nat) (b : Bool) (c : Nat) (h : c ≠ cpu) :
    switch_cpu o cpu b c = o c := by
  simp [switch_cpu, h]

lemma switch_cpu_self (o : Nat → Bool) (cpu : Nat) (b : Bool) :
    switch_cpu o cpu b cpu = !b := by
  simp [switch_cpu]

lemma online_all_go_skip (l : List Nat) (o : Nat → Bool) (x : Nat) (h : x ∉ l) :
    online_all_go l o x = o x := by
  induction l generalizing o with
  | nil => rfl
  | cons c rest ih =>
    simp only [List.mem_cons, not_or] at h
    rw [online_all_go, ih _ h.2]
    split
    · exact switch_cpu_ne _ _ _ _ h.1
    · rfl

lemma online_all_go_keep (l : List Nat) (o : Nat → Bool) (x : Nat) (h : o x = true) :
    online_all_go l o x = true := by
  induction l generalizing o with
  | nil => exact h
  | cons c rest ih =>
    rw [online_all_go]
    apply ih
    split
    · by_cases hx : x = c
      · subst hx; exact switch_cpu_self o x false
      · rw [switch_cpu_ne _ _ _ _ hx]; exact h
    · exact h

lemma online_all_go_mem (l : List Nat) (o : Nat → Bool) (x : Nat) (h : x ∈ l) :
    online_all_go l o x = true := by
  induction l generalizing o with
  | nil => cases h
  | cons c rest ih =>
    rw [online_all_go]
    rcases List.mem_cons.mp h with hx | hx
    · subst hx
      apply online_all_go_keep
      split
      · exact switch_cpu_self o x false
      · rename_i hc; simpa using hc
    · exact ih _ hx

lemma optimized_online_all_mem (o : Nat → Bool) (x : Nat) (h : x < 8) :
    optimized_online_all o x = true := by
  apply online_all_go_mem
  interval_cases x <;> decide

lemma online_one_go_skip (l : List Nat) (o : Nat → Bool) (x : Nat) (h : x ∉ l) :
    online_one_go l o x = o x := by
  induction l with
  | nil => rfl
  | cons c rest ih =>
    simp only [List.mem_cons, not_or] at h
    rw [online_one_go]
    split
    · exact switch_cpu_ne _ _ _ _ h.1
    · exact ih h.2

lemma offline_one_go_skip (l : List Nat) (o : Nat → Bool) (x : Nat) (h : x ∉ l) :
    offline_one_go l o x = o x := by
  induction l with
  | nil => rfl
  | cons c rest ih =>
    simp only [List.mem_cons, not_or] at h
    rw [offline_one_go]
    split
    · exact switch_cpu_ne _ _ _ _ h.1
    · exact ih h.2

lemma online_one_go_find (l : List Nat) (o : Nat → Bool) :
    online_one_go l o =
      (match l.find? (fun c => !(o c)) with
        | Option.some c => switch_cpu o c false
        | Option.none => o) := by
  induction l with
  | nil => rfl
  | cons c rest ih =>
    rw [online_one_go, List.find?]
    by_cases hc : o c
    · simp [hc, ih]
    · simp [hc]

lemma offline_one_go_find (l : List Nat) (o : Nat → Bool) :
    offline_one_go l o =
      (match l.find? (fun c => o c) with
        | Option.some c => switch_cpu o c true
        | Option.none => o) := by
  induction l with
  | nil => rfl
  | cons c rest ih =>
    rw [offline_one_go, List.find?]
    by_cases hc : o c
    · simp [hc]
    · simp [hc, ih]

lemma online_one_cpu_anchor (o : Nat → Bool) (x : Nat) (h : x ∉ cpu_scan_order) :
    online_one_cpu o x = o x :=
  online_one_go_skip _ _ _ h

lemma offline_one_cpu_anchor (o : Nat → Bool) (x : Nat) (h : x ∉ cpu_scan_order) :
    offline_one_cpu o x = o x :=
  offline_one_go_skip _ _ _ h

lemma enable_little_go_skip (l : List Nat) (r : Nat) (o : Nat → Bool) (x : Nat)
    (h : x ∉ l) : enable_little_go l r o x = o x := by
  induction l generalizing r o with
  | nil => rfl
  | cons c rest ih =>
    simp only [List.mem_cons, not_or] at h
    rw [enable_little_go]
    split
    · split
      · rw [ih _ _ h.2]
        split
        · exact switch_cpu_ne _ _ _ _ h.1
        · rfl
      · split
        · rw [ih _ _ h.2]; exact switch_cpu_ne _ _ _ _ h.1
        · exact ih _ _ h.2
    · exact ih _ _ h.2

lemma disable_big_go_skip_little (l : List Nat) (o : Nat → Bool) (x : Nat)
    (h : is_big_cpu x = false) : disable_big_go l o x = o x := by
  induction l generalizing o with
  | nil => rfl
  | cons c rest ih =>
    rw [disable_big_go]
    split
    · rename_i hc
      rw [ih]
      apply switch_cpu_ne
      intro hxc
      subst hxc
      simp [h] at hc
    · exact ih o

lemma disable_big_go_keep_false (l : List Nat) (o : Nat → Bool) (x : Nat)
    (h : o x = false) : disable_big_go l o x = false := by
  induction l generalizing o with
  | nil => exact h
  | cons c rest ih =>
    rw [disable_big_go]
    split
    · apply ih
      by_cases hx : x = c
      · subst hx; exact switch_cpu_self o x true
      · rw [switch_cpu_ne _ _ _ _ hx]; exact h
    · exact ih o h

lemma disable_big_go_mem (l : List Nat) (o : Nat → Bool) (x : Nat)
    (hb : is_big_cpu x = true) (h : x ∈ l) : disable_big_go l o x = false := by
  induction l generalizing o with
  | nil => cases h
  | cons c rest ih =>
    rw [disable_big_go]
    rcases List.mem_cons.mp h with hx | hx
    · subst hx
      by_cases ho : o x
      · rw [if_pos (by simp [hb, ho])]
        exact disable_big_go_keep_false _ _ _ (switch_cpu_self o x true)
      · split
        · apply disable_big_go_keep_false
          exact switch_cpu_self o x true
        · exact disable_big_go_keep_false _ _ _ (by simpa using ho)
    · split
      · apply ih _ hx
      · exact ih o hx

end ClusterPlug

namespace ClusterPlug

lemma enable_little_go_cap2 (o : Nat → Bool) :
    enable_little_go present_cpus 2 o 0 = true ∧
    enable_little_go present_cpus 2 o 1 = true ∧
    enable_little_go present_cpus 2 o 2 = false ∧
    enable_little_go present_cpus 2 o 3 = false ∧
    enable_little_go present_cpus 2 o 4 = o 4 ∧
    enable_little_go present_cpus 2 o 5 = o 5 ∧
    enable_little_go present_cpus 2 o 6 = o 6 ∧
    enable_little_go present_cpus 2 o 7 = o 7 := by
  cases h0 : o 0 <;> cases h1 : o 1 <;> cases h2 : o 2 <;> cases h3 : o 3 <;>
    simp [present_cpus, enable_little_go, is_little_cpu, nLittleCpus, switch_cpu,
      h0, h1, h2, h3]

lemma enable_little_go_head_online (rest : List Nat) (r : Nat) (o : Nat → Bool)
    (hr : 0 < r) (h : (0 : Nat) ∉ rest) :
    enable_little_go (0 :: rest) r o 0 = true := by
  rw [enable_little_go]
  rw [if_pos (by decide), if_pos (by simpa using hr)]
  rw [enable_little_go_skip _ _ _ _ h]
  by_cases h0 : o 0
  · simp [h0]
  · simp [h0, switch_cpu]

lemma enable_little_required_pos (cfg : Config) (s : State) :
    0 < enable_little_required cfg s := by
  unfold enable_little_required
  split
  · split
    · rename_i h
      exact (Bool.and_eq_true _ _ ▸ h).1 |> of_decide_eq_true
    · decide
  · decide

lemma enable_little_cluster_online_zero (cfg : Config) (s : State) :
    (enable_little_cluster cfg s).online 0 = true := by
  show enable_little_go present_cpus (enable_little_required cfg s) s.online 0 = true
  have : present_cpus = 0 :: [1, 2, 3, 4, 5, 6, 7] := rfl
  rw [this]
  exact enable_little_go_head_online _ _ _ (enable_little_required_pos cfg s) (by decide)

end ClusterPlug

namespace ClusterPlug

lemma stage_active (s : State) : (work_fn_online_all_stage s).active = s.active := by
  unfold work_fn_online_all_stage; split <;> rfl

lemma stage_pending (s : State) : (work_fn_online_all_stage s).pending = s.pending := by
  unfold work_fn_online_all_stage; split <;> rfl

lemma stage_screen_on (s : State) : (work_fn_online_all_stage s).screen_on = s.screen_on := by
  unfold work_fn_online_all_stage; split <;> rfl

lemma stage_low_power (s : State) :
    (work_fn_online_all_stage s).low_power_mode = s.low_power_mode := by
  unfold work_fn_online_all_stage; split <;> rfl

lemma stage_screen_off_power (s : State) :
    (work_fn_online_all_stage s).screen_off_power_mode = s.screen_off_power_mode := by
  unfold work_fn_online_all_stage; split <;> rfl

lemma stage_online_all (s : State) :
    (work_fn_online_all_stage s).online_all = s.online_all := by
  unfold work_fn_online_all_stage; split <;> rfl

lemma stage_online_zero (s : State) (h : s.online 0 = true) :
    (work_fn_online_all_stage s).online 0 = true := by
  unfold work_fn_online_all_stage
  split
  · exact optimized_online_all_mem _ 0 (by decide)
  · exact h

lemma disable_big_cluster_low_power (s : State) :
    (disable_big_cluster s).low_power_mode = s.low_power_mode := by
  unfold disable_big_cluster; split <;> rfl

lemma disable_big_cluster_screen_off_power (s : State) :
    (disable_big_cluster s).screen_off_power_mode = s.screen_off_power_mode := by
  unfold disable_big_cluster; split <;> rfl

lemma disable_big_cluster_pending (s : State) :
    (disable_big_cluster s).pending = s.pending := by
  unfold disable_big_cluster; split <;> rfl

lemma disable_big_cluster_online_little (s : State) (x : Nat)
    (h : is_big_cpu x = false) : (disable_big_cluster s).online x = s.online x := by
  unfold disable_big_cluster
  split
  · rfl
  · exact disable_big_go_skip_little _ _ _ h

lemma disable_big_cluster_online_big (s : State) (x : Nat)
    (hb : is_big_cpu x = true) (hx : x ∈ present_cpus)
    (h : s.big_cluster_enabled = true) : (disable_big_cluster s).online x = false := by
  unfold disable_big_cluster
  rw [if_neg (by simp [h])]
  exact disable_big_go_mem _ _ _ hb hx

lemma cluster_plug_perform_online_anchor (cfg : Config) (loads : Nat → Nat)
    (s : State) (x : Nat) (hx : x ∉ cpu_scan_order) :
    (cluster_plug_perform cfg loads s).online x = s.online x := by
  unfold cluster_plug_perform
  dsimp only
  cases (observe cfg ⟨s.vote_up, s.vote_down⟩ (calculateLoad loads s.online)).2 with
  | none => rfl
  | addCore => exact online_one_go_skip _ _ _ hx
  | removeCore => exact offline_one_go_skip _ _ _ hx

lemma cluster_plug_perform_low_power (cfg : Config) (loads : Nat → Nat) (t : State) :
    (cluster_plug_perform cfg loads t).low_power_mode = t.low_power_mode := rfl

lemma cluster_plug_perform_screen_off_power (cfg : Config) (loads : Nat → Nat) (t : State) :
    (cluster_plug_perform cfg loads t).screen_off_power_mode = t.screen_off_power_mode := rfl

lemma enable_little_cluster_low_power (cfg : Config) (t : State) :
    (enable_little_cluster cfg t).low_power_mode = t.low_power_mode := rfl

lemma enable_little_cluster_screen_off_power (cfg : Config) (t : State) :
    (enable_little_cluster cfg t).screen_off_power_mode = t.screen_off_power_mode := rfl

lemma work_fn_low_power (cfg : Config) (loads : Nat → Nat) (s : State) :
    (cluster_plug_work_fn cfg loads s).low_power_mode = s.low_power_mode := by
  unfold cluster_plug_work_fn work_fn_suspend_branch
  dsimp only
  split
  · split
    · split
      · dsimp only
        rw [cluster_plug_perform_low_power, stage_low_power]
      · dsimp only
        rw [disable_big_cluster_low_power, enable_little_cluster_low_power, stage_low_power]
    · dsimp only
      rw [stage_low_power]
  · dsimp only
    rw [stage_low_power]

lemma work_fn_screen_off_power (cfg : Config) (loads : Nat → Nat) (s : State) :
    (cluster_plug_work_fn cfg loads s).screen_off_power_mode = s.screen_off_power_mode := by
  unfold cluster_plug_work_fn work_fn_suspend_branch
  dsimp only
  split
  · split
    · split
      · dsimp only
        rw [cluster_plug_perform_screen_off_power, stage_screen_off_power]
      · dsimp only
        rw [disable_big_cluster_screen_off_power, enable_little_cluster_screen_off_power,
          stage_screen_off_power]
    · dsimp only
      rw [stage_screen_off_power]
  · dsimp only
    rw [stage_screen_off_power]

lemma work_fn_online_zero (cfg : Config) (loads : Nat → Nat) (s : State)
    (h : s.online 0 = true) :
    (cluster_plug_work_fn cfg loads s).online 0 = true := by
  unfold cluster_plug_work_fn work_fn_suspend_branch
  have h1 : (work_fn_online_all_stage { s with pending := s.pending - 1 }).online 0 = true :=
    stage_online_zero _ h
  dsimp only
  split
  · split
    · split
      · dsimp only
        rw [cluster_plug_perform_online_anchor _ _ _ _ (by decide)]
        exact h1
      · dsimp only
        rw [disable_big_cluster_online_little _ _ (by decide)]
        exact enable_little_cluster_online_zero _ _
    · dsimp only
      exact h1
  · dsimp only
    exact h1

lemma work_fn_pending_inactive (cfg : Config) (loads : Nat → Nat) (s : State)
    (h : s.active = false) :
    (cluster_plug_work_fn cfg loads s).pending = s.pending - 1 := by
  unfold cluster_plug_work_fn
  dsimp only
  rw [if_neg]
  · dsimp only
    rw [stage_pending]
  · rw [stage_active]
    simp [h]

lemma reachable_online_zero (s : State) (h : Reachable s) : s.online 0 = true := by
  induction h with
  | init => rfl
  | tick cfg loads s hs ih => exact work_fn_online_zero cfg loads s ih
  | lcd_off s hs ih =>
    unfold cluster_plug_hotplug_suspend
    split
    · split <;> exact ih
    · exact ih
  | lcd_on s hs ih =>
    unfold cluster_plug_hotplug_resume
    split
    · split <;> exact ih
    · exact ih
  | set_active v s hs ih =>
    unfold active_store; split <;> exact ih
  | set_low_power v s hs ih =>
    unfold low_power_mode_store; split <;> exact ih
  | set_screen_off_power v s hs ih =>
    unfold screen_off_power_mode_store; split <;> exact ih

lemma reachable_mode_exclusion (s : State) (h : Reachable s) :
    (s.low_power_mode && s.screen_off_power_mode) = false := by
  induction h with
  | init => rfl
  | tick cfg loads s hs ih =>
    rw [work_fn_low_power, work_fn_screen_off_power]
    exact ih
  | lcd_off s hs ih =>
    unfold cluster_plug_hotplug_suspend
    split
    · split <;> exact ih
    · exact ih
  | lcd_on s hs ih =>
    unfold cluster_plug_hotplug_resume
    split
    · split <;> exact ih
    · exact ih
  | set_active v s hs ih =>
    unfold active_store; split <;> exact ih
  | set_low_power v s hs ih =>
    unfold low_power_mode_store
    split
    · exact ih
    · show ((decide (v ≠ 0)) && (if decide (v ≠ 0) then false else s.screen_off_power_mode)) = false
      by_cases hv : v = 0 <;> simp [hv]
  | set_screen_off_power v s hs ih =>
    unfold screen_off_power_mode_store
    split
    · exact ih
    · show ((if decide (v ≠ 0) then false else s.low_power_mode) && (decide (v ≠ 0))) = false
      by_cases hv : v = 0 <;> simp [hv]

end ClusterPlug

namespace ClusterPlug

lemma vote_update_nonneg (cfg : Config) (v : VoteState) (load : Nat)
    (hu : 0 ≤ v.up) (hd : 0 ≤ v.down) :
    0 ≤ (vote_update cfg v load).up ∧ 0 ≤ (vote_update cfg v load).down := by
  unfold vote_update
  split
  · dsimp only
    refine ⟨by omega, ?_⟩
    split <;> omega
  · split
    · dsimp only
      refine ⟨?_, by omega⟩
      split <;> omega
    · exact ⟨hu, hd⟩

lemma observe_nonneg (cfg : Config) (v : VoteState) (load : Nat)
    (hu : 0 ≤ v.up) (hd : 0 ≤ v.down) :
    0 ≤ (observe cfg v load).1.up ∧ 0 ≤ (observe cfg v load).1.down := by
  unfold observe
  dsimp only
  split
  · exact ⟨le_refl 0, le_refl 0⟩
  · split
    · exact ⟨le_refl 0, le_refl 0⟩
    · exact vote_update_nonneg cfg v load hu hd

lemma runObserve_nonneg (cfg : Config) (loads : List Nat) (v : VoteState)
    (hu : 0 ≤ v.up) (hd : 0 ≤ v.down) :
    0 ≤ (runObserve cfg v loads).up ∧ 0 ≤ (runObserve cfg v loads).down := by
  induction loads generalizing v with
  | nil => exact ⟨hu, hd⟩
  | cons l rest ih =>
    rw [runObserve]
    exact ih _ (observe_nonneg cfg v l hu hd).1 (observe_nonneg cfg v l hu hd).2

lemma observe_addCore_iff (cfg : Config) (v : VoteState) (load : Nat) :
    (observe cfg v load).2 = Action.addCore ↔
      (vote_update cfg v load).up > (cfg.vote_threshold_up : Int) := by
  unfold observe
  dsimp only
  split
  · rename_i h; simpa using h
  · split
    · rename_i h _; simpa using h
    · rename_i h _; simpa using h

lemma observe_removeCore_iff (cfg : Config) (v : VoteState) (load : Nat) :
    (observe cfg v load).2 = Action.removeCore ↔
      (¬((vote_update cfg v load).up > (cfg.vote_threshold_up : Int)) ∧
        (vote_update cfg v load).down > (cfg.vote_threshold_down : Int)) := by
  unfold observe
  dsimp only
  split
  · rename_i h; simp [h]
  · split
    · rename_i h1 h2; simp [h1, h2]
    · rename_i h1 h2; simp [h1, h2]

lemma observe_reset (cfg : Config) (v : VoteState) (load : Nat) :
    (observe cfg v load).2 ≠ Action.none → (observe cfg v load).1 = ⟨0, 0⟩ := by
  unfold observe
  dsimp only
  split
  · intro _; rfl
  · split
    · intro _; rfl
    · intro h; simp at h

lemma observe_bounded (cfg : Config) (v : VoteState) (load : Nat) :
    (observe cfg v load).1.up ≤ (cfg.vote_threshold_up : Int) ∧
    (observe cfg v load).1.down ≤ (cfg.vote_threshold_down : Int) := by
  unfold observe
  dsimp only
  split
  · constructor <;> exact Int.natCast_nonneg _
  · split
    · constructor <;> exact Int.natCast_nonneg _
    · rename_i h1 h2
      refine ⟨?_, ?_⟩ <;> dsimp only <;> omega

lemma runObserve_bounded (cfg : Config) (loads : List Nat) (v : VoteState)
    (hu : v.up ≤ (cfg.vote_threshold_up : Int))
    (hd : v.down ≤ (cfg.vote_threshold_down : Int)) :
    (runObserve cfg v loads).up ≤ (cfg.vote_threshold_up : Int) ∧
    (runObserve cfg v loads).down ≤ (cfg.vote_threshold_down : Int) := by
  induction loads generalizing v with
  | nil => exact ⟨hu, hd⟩
  | cons l rest ih =>
    rw [runObserve]
    exact ih _ (observe_bounded cfg v l).1 (observe_bounded cfg v l).2

lemma vote_update_deadband (cfg : Config) (v : VoteState) (load : Nat)
    (h1 : cfg.load_threshold_down ≤ load) (h2 : load ≤ cfg.load_threshold_up) :
    vote_update cfg v load = v := by
  unfold vote_update
  rw [if_neg (by omega), if_neg (by omega)]

lemma observe_deadband (cfg : Config) (v : VoteState) (load : Nat)
    (hub : v.up ≤ (cfg.vote_threshold_up : Int))
    (hdb : v.down ≤ (cfg.vote_threshold_down : Int))
    (h1 : cfg.load_threshold_down ≤ load) (h2 : load ≤ cfg.load_threshold_up) :
    observe cfg v load = (v, Action.none) := by
  unfold observe
  dsimp only
  rw [vote_update_deadband cfg v load h1 h2, if_neg (by omega), if_neg (by omega)]

end ClusterPlug

namespace ClusterPlug

/-- C2 (counterexample): the claim says remove_one_core visits all little
cores before all big cores.  With every cpu online, offline_one_cpu switches
off big cpu 6 and leaves every little cpu online, so the removal scan visits
big cores first, not the reverse order the claim asserts. -/
theorem offline_one_cpu_prefers_big :
    offline_one_cpu allOnline 6 = false ∧
    offline_one_cpu allOnline 1 = true ∧
    offline_one_cpu allOnline 2 = true ∧
    offline_one_cpu allOnline 3 = true ∧
    is_big_cpu 6 = true ∧ is_little_cpu 1 = true ∧
    is_little_cpu 2 = true ∧ is_little_cpu 3 = true := by
  decide

/-- C2 (amended): online_one_cpu and offline_one_cpu walk the SAME fixed scan
order 6,5,4,3,2,1, which visits all big cores before all little cores in
both directions; each acts on the first eligible cpu found (offline for
adding, online for removing) and is the identity when no eligible cpu
exists. -/
theorem scan_order_first_eligible (o : Nat → Bool) :
    cpu_scan_order = [6, 5, 4, 3, 2, 1] ∧
    cpu_scan_order.filter is_big_cpu = [6, 5, 4] ∧
    cpu_scan_order.filter is_little_cpu = [3, 2, 1] ∧
    online_one_cpu o =
      (match cpu_scan_order.find? (fun c => !(o c)) with
        | Option.some c => switch_cpu o c false
        | Option.none => o) ∧
    offline_one_cpu o =
      (match cpu_scan_order.find? (fun c => o c) with
        | Option.some c => switch_cpu o c true
        | Option.none => o) :=
  ⟨by decide, by decide, by decide, online_one_go_find _ _, offline_one_go_find _ _⟩

/-- C5: neither online_one_cpu nor offline_one_cpu ever changes the online
bit of cpu 0 or cpu 7 (the anchor cores excluded from the scan order), and
consequently a whole cluster_plug_perform decision step leaves both anchors
untouched. -/
theorem anchor_cores_never_switched (o : Nat → Bool) (cfg : Config)
    (loads : Nat → Nat) (s : State) :
    online_one_cpu o 0 = o 0 ∧ online_one_cpu o 7 = o 7 ∧
    offline_one_cpu o 0 = o 0 ∧ offline_one_cpu o 7 = o 7 ∧
    (cluster_plug_perform cfg loads s).online 0 = s.online 0 ∧
    (cluster_plug_perform cfg loads s).online 7 = s.online 7 :=
  ⟨online_one_cpu_anchor o 0 (by decide), online_one_cpu_anchor o 7 (by decide),
    offline_one_cpu_anchor o 0 (by decide), offline_one_cpu_anchor o 7 (by decide),
    cluster_plug_perform_online_anchor cfg loads s 0 (by decide),
    cluster_plug_perform_online_anchor cfg loads s 7 (by decide)⟩

/-- C6: starting from zero counters, any sequence of observe calls keeps both
vote counters non-negative; a single observe on non-negative counters keeps
them non-negative, returns addCore exactly when the updated up-counter
strictly exceeds vote_threshold_up, returns removeCore exactly when it does
not and the updated down-counter strictly exceeds vote_threshold_down, and
resets both counters to 0 whenever the returned action is not none. -/
theorem voting_engine_invariants (cfg : Config) (v : VoteState) (load : Nat)
    (loads : List Nat) (hu : 0 ≤ v.up) (hd : 0 ≤ v.down) :
    (0 ≤ (runObserve cfg ⟨0, 0⟩ loads).up ∧ 0 ≤ (runObserve cfg ⟨0, 0⟩ loads).down) ∧
    (0 ≤ (observe cfg v load).1.up ∧ 0 ≤ (observe cfg v load).1.down) ∧
    ((observe cfg v load).2 = Action.addCore ↔
      (vote_update cfg v load).up > (cfg.vote_threshold_up : Int)) ∧
    ((observe cfg v load).2 = Action.removeCore ↔
      (¬((vote_update cfg v load).up > (cfg.vote_threshold_up : Int)) ∧
        (vote_update cfg v load).down > (cfg.vote_threshold_down : Int))) ∧
    ((observe cfg v load).2 ≠ Action.none → (observe cfg v load).1 = ⟨0, 0⟩) :=
  ⟨runObserve_nonneg cfg loads ⟨0, 0⟩ (le_refl 0) (le_refl 0),
    observe_nonneg cfg v load hu hd,
    observe_addCore_iff cfg v load,
    observe_removeCore_iff cfg v load,
    observe_reset cfg v load⟩

/-- C6 witness at the defaults with counters (2, 0) and load 85, where the
observe call fires addCore and resets both counters. -/
theorem voting_engine_invariants_witness :
    (0 ≤ (runObserve defaultConfig ⟨0, 0⟩ [85, 85, 85]).up ∧
      0 ≤ (runObserve defaultConfig ⟨0, 0⟩ [85, 85, 85]).down) ∧
    (0 ≤ (observe defaultConfig ⟨2, 0⟩ 85).1.up ∧
      0 ≤ (observe defaultConfig ⟨2, 0⟩ 85).1.down) ∧
    (observe defaultConfig ⟨2, 0⟩ 85).1 = ⟨0, 0⟩ :=
  have r := voting_engine_invariants defaultConfig ⟨2, 0⟩ 85 [85, 85, 85]
    (by decide) (by decide)
  ⟨r.1, r.2.1, r.2.2.2.2 (by decide)⟩

/-- C7: when both counters are within their thresholds (true in every state a
run from zero counters can produce, per the second conjunct), an observe of
any load inside the closed dead band [load_threshold_down,
load_threshold_up] leaves both counters unchanged and fires no action. -/
theorem dead_band_holds (cfg : Config) (v : VoteState) (load : Nat)
    (loads : List Nat)
    (hub : v.up ≤ (cfg.vote_threshold_up : Int))
    (hdb : v.down ≤ (cfg.vote_threshold_down : Int))
    (h1 : cfg.load_threshold_down ≤ load) (h2 : load ≤ cfg.load_threshold_up) :
    observe cfg v load = (v, Action.none) ∧
    ((runObserve cfg ⟨0, 0⟩ loads).up ≤ (cfg.vote_threshold_up : Int) ∧
      (runObserve cfg ⟨0, 0⟩ loads).down ≤ (cfg.vote_threshold_down : Int)) :=
  ⟨observe_deadband cfg v load hub hdb h1 h2,
    runObserve_bounded cfg loads ⟨0, 0⟩ (Int.natCast_nonneg _) (Int.natCast_nonneg _)⟩

/-- C7 witness at the defaults with counters (2, 5) and the boundary load 20. -/
theorem dead_band_holds_witness :
    observe defaultConfig ⟨2, 5⟩ 20 = (⟨2, 5⟩, Action.none) ∧
    ((runObserve defaultConfig ⟨0, 0⟩ [50, 85, 10]).up ≤
      (defaultConfig.vote_threshold_up : Int) ∧
      (runObserve defaultConfig ⟨0, 0⟩ [50, 85, 10]).down ≤
        (defaultConfig.vote_threshold_down : Int)) :=
  dead_band_holds defaultConfig ⟨2, 5⟩ 20 [50, 85, 10]
    (by decide) (by decide) (by decide) (by decide)

end ClusterPlug

namespace ClusterPlug

lemma disable_big_cluster_clears_flag (t : State) (h : t.big_cluster_enabled = true) :
    (disable_big_cluster t).big_cluster_enabled = false := by
  unfold disable_big_cluster
  rw [if_neg (by simp [h])]

lemma disable_big_cluster_little_flag (t : State) :
    (disable_big_cluster t).little_cluster_enabled = t.little_cluster_enabled := by
  unfold disable_big_cluster; split <;> rfl

lemma enable_little_cluster_online_cap2 (cfg : Config) (t : State)
    (hso : t.screen_on = false) (hsop : t.screen_off_power_mode = false)
    (hcap : cfg.max_cores_screenoff = 2) :
    (enable_little_cluster cfg t).online = enable_little_go present_cpus 2 t.online := by
  show enable_little_go present_cpus (enable_little_required cfg t) t.online = _
  have hreq : enable_little_required cfg t = 2 := by
    unfold enable_little_required
    rw [hso, hsop, hcap]
    decide
  rw [hreq]

lemma suspend_branch_effect (cfg : Config) (t : State)
    (hso : t.screen_on = false) (hsop : t.screen_off_power_mode = false)
    (hbig : t.big_cluster_enabled = true) (hcap : cfg.max_cores_screenoff = 2) :
    ((work_fn_suspend_branch cfg t).online 0 = true ∧
      (work_fn_suspend_branch cfg t).online 1 = true ∧
      (work_fn_suspend_branch cfg t).online 2 = false ∧
      (work_fn_suspend_branch cfg t).online 3 = false ∧
      (work_fn_suspend_branch cfg t).online 4 = false ∧
      (work_fn_suspend_branch cfg t).online 5 = false ∧
      (work_fn_suspend_branch cfg t).online 6 = false ∧
      (work_fn_suspend_branch cfg t).online 7 = false) ∧
    (work_fn_suspend_branch cfg t).workqueue_suspended = true ∧
    (work_fn_suspend_branch cfg t).big_cluster_enabled = false ∧
    (work_fn_suspend_branch cfg t).little_cluster_enabled = true ∧
    (work_fn_suspend_branch cfg t).pending = t.pending := by
  have honl : (enable_little_cluster cfg t).online = enable_little_go present_cpus 2 t.online :=
    enable_little_cluster_online_cap2 cfg t hso hsop hcap
  obtain ⟨e0, e1, e2, e3, e4, e5, e6, e7⟩ := enable_little_go_cap2 t.online
  have hb : (enable_little_cluster cfg t).big_cluster_enabled = true := hbig
  have hbody : (work_fn_suspend_branch cfg t).online =
      (disable_big_cluster (enable_little_cluster cfg t)).online := rfl
  refine ⟨⟨?_, ?_, ?_, ?_, ?_, ?_, ?_, ?_⟩, rfl, ?_, ?_, ?_⟩
  · rw [hbody, disable_big_cluster_online_little _ _ (by decide), honl]; exact e0
  · rw [hbody, disable_big_cluster_online_little _ _ (by decide), honl]; exact e1
  · rw [hbody, disable_big_cluster_online_little _ _ (by decide), honl]; exact e2
  · rw [hbody, disable_big_cluster_online_little _ _ (by decide), honl]; exact e3
  · rw [hbody]; exact disable_big_cluster_online_big _ _ (by decide) (by decide) hb
  · rw [hbody]; exact disable_big_cluster_online_big _ _ (by decide) (by decide) hb
  · rw [hbody]; exact disable_big_cluster_online_big _ _ (by decide) (by decide) hb
  · rw [hbody]; exact disable_big_cluster_online_big _ _ (by decide) (by decide) hb
  · show (disable_big_cluster (enable_little_cluster cfg t)).big_cluster_enabled = false
    exact disable_big_cluster_clears_flag _ hb
  · show (disable_big_cluster (enable_little_cluster cfg t)).little_cluster_enabled = true
    rw [disable_big_cluster_little_flag]
    rfl
  · show (disable_big_cluster (enable_little_cluster cfg t)).pending = t.pending
    rw [disable_big_cluster_pending]
    rfl

lemma work_fn_takes_suspend_branch (cfg : Config) (loads : Nat → Nat) (s : State)
    (ha : s.active = true) (hso : s.screen_on = false)
    (hsop : s.screen_off_power_mode = false) (hoa : s.online_all = false) :
    cluster_plug_work_fn cfg loads s =
      work_fn_suspend_branch cfg { s with pending := s.pending - 1 } := by
  have hs1 : work_fn_online_all_stage { s with pending := s.pending - 1 } =
      { s with pending := s.pending - 1 } := by
    unfold work_fn_online_all_stage
    rw [if_neg]
    show ¬ (({ s with pending := s.pending - 1 }).online_all = true)
    simp [hoa]
  unfold cluster_plug_work_fn
  dsimp only
  rw [hs1]
  simp only [ha, hso, hsop, hoa]
  simp

end ClusterPlug

namespace ClusterPlug

/-- C1 (counterexample): in the exact scenario of the claim — controller
active, screen off, screen_off_power_mode = true, low_power_mode = false,
max_cores_when_screen_off = 2, all cpus online, one pending tick — the tick
takes the sampling branch: the big cpus 4..7 stay online, the suspension
flag stays clear, and the task re-arms itself (one work item pending
afterwards), contradicting every conclusion of the claim. -/
theorem screen_off_power_mode_keeps_sampling :
    (cluster_plug_work_fn cfgCap2 flatLoads screenOffPowerState).online 4 = true ∧
    (cluster_plug_work_fn cfgCap2 flatLoads screenOffPowerState).online 5 = true ∧
    (cluster_plug_work_fn cfgCap2 flatLoads screenOffPowerState).online 6 = true ∧
    (cluster_plug_work_fn cfgCap2 flatLoads screenOffPowerState).online 7 = true ∧
    (cluster_plug_work_fn cfgCap2 flatLoads screenOffPowerState).workqueue_suspended = false ∧
    (cluster_plug_work_fn cfgCap2 flatLoads screenOffPowerState).pending = 1 := by
  decide

/-- C1 (amended): the minimal-power tick fires when the screen is off and
screen_off_power_mode is FALSE (the source condition), not true as the claim
says.  In that scenario — controller active, screen off, both power-mode
flags false, online_all clear, big-cluster flag set, one pending tick,
max_cores_when_screen_off = 2 — the tick offlines every big cpu, leaves
exactly the two little cpus 0 and 1 online, sets the suspension flag and
does not re-arm (no pending work remains). -/
theorem screen_off_tick_suspends (cfg : Config) (loads : Nat → Nat) (s : State)
    (ha : s.active = true) (hso : s.screen_on = false)
    (hsop : s.screen_off_power_mode = false) (hlp : s.low_power_mode = false)
    (hoa : s.online_all = false) (hbig : s.big_cluster_enabled = true)
    (hp : s.pending = 1) (hcap : cfg.max_cores_screenoff = 2) :
    (cluster_plug_work_fn cfg loads s).online 0 = true ∧
    (cluster_plug_work_fn cfg loads s).online 1 = true ∧
    (cluster_plug_work_fn cfg loads s).online 2 = false ∧
    (cluster_plug_work_fn cfg loads s).online 3 = false ∧
    (cluster_plug_work_fn cfg loads s).online 4 = false ∧
    (cluster_plug_work_fn cfg loads s).online 5 = false ∧
    (cluster_plug_work_fn cfg loads s).online 6 = false ∧
    (cluster_plug_work_fn cfg loads s).online 7 = false ∧
    onlineCount (cluster_plug_work_fn cfg loads s).online = 2 ∧
    (cluster_plug_work_fn cfg loads s).workqueue_suspended = true ∧
    (cluster_plug_work_fn cfg loads s).big_cluster_enabled = false ∧
    (cluster_plug_work_fn cfg loads s).little_cluster_enabled = true ∧
    (cluster_plug_work_fn cfg loads s).pending = 0 := by
  rw [work_fn_takes_suspend_branch cfg loads s ha hso hsop hoa]
  obtain ⟨⟨e0, e1, e2, e3, e4, e5, e6, e7⟩, hwq, hbf, hlf, hpd⟩ :=
    suspend_branch_effect cfg { s with pending := s.pending - 1 } hso hsop hbig hcap
  refine ⟨e0, e1, e2, e3, e4, e5, e6, e7, ?_, hwq, hbf, hlf, ?_⟩
  · unfold onlineCount present_cpus
    simp [List.filter, e0, e1, e2, e3, e4, e5, e6, e7]
  · rw [hpd]
    simp [hp]

/-- C1 witness: the amended scenario instantiated with all cpus online (the
boot topology, screen just gone off, one tick pending). -/
theorem screen_off_tick_suspends_witness :
    (cluster_plug_work_fn cfgCap2 flatLoads
        { initState with
          active := true
          screen_on := false
          workqueue_suspended := false
          pending := 1 }).online 0 = true ∧
    (cluster_plug_work_fn cfgCap2 flatLoads
        { initState with
          active := true
          screen_on := false
          workqueue_suspended := false
          pending := 1 }).online 4 = false ∧
    onlineCount (cluster_plug_work_fn cfgCap2 flatLoads
        { initState with
          active := true
          screen_on := false
          workqueue_suspended := false
          pending := 1 }).online = 2 ∧
    (cluster_plug_work_fn cfgCap2 flatLoads
        { initState with
          active := true
          screen_on := false
          workqueue_suspended := false
          pending := 1 }).workqueue_suspended = true ∧
    (cluster_plug_work_fn cfgCap2 flatLoads
        { initState with
          active := true
          screen_on := false
          workqueue_suspended := false
          pending := 1 }).pending = 0 :=
  have r := screen_off_tick_suspends cfgCap2 flatLoads
    { initState with
      active := true
      screen_on := false
      workqueue_suspended := false
      pending := 1 }
    rfl rfl rfl rfl rfl rfl rfl rfl
  ⟨r.1, r.2.2.2.2.1, r.2.2.2.2.2.2.2.2.1, r.2.2.2.2.2.2.2.2.2.1,
    r.2.2.2.2.2.2.2.2.2.2.2.2⟩

end ClusterPlug

namespace ClusterPlug

lemma work_fn_online_all_effect (cfg : Config) (loads : Nat → Nat) (s : State)
    (h : s.online_all = true) :
    (∀ c, c < 8 → (cluster_plug_work_fn cfg loads s).online c = true) ∧
    (cluster_plug_work_fn cfg loads s).big_cluster_enabled = true ∧
    (cluster_plug_work_fn cfg loads s).little_cluster_enabled = true := by
  have hs1 : work_fn_online_all_stage { s with pending := s.pending - 1 } =
      { s with
        pending := s.pending - 1
        online := optimized_online_all s.online
        big_cluster_enabled := true
        little_cluster_enabled := true } := by
    unfold work_fn_online_all_stage
    rw [if_pos]
    show ({ s with pending := s.pending - 1 }).online_all = true
    simpa using h
  unfold cluster_plug_work_fn
  dsimp only
  rw [hs1]
  dsimp only
  rw [h]
  split
  · rw [if_neg (by decide)]
    dsimp only
    exact ⟨fun c hc => optimized_online_all_mem _ c hc, rfl, rfl⟩
  · exact ⟨fun c hc => optimized_online_all_mem _ c hc, rfl, rfl⟩

/-- C10: any accepted write that toggles the active flag — in either
direction, disabling included — sets online_all, leaves exactly one work
item queued, and the tick this produces brings every one of the eight cpus
(anchors included) online and sets both cluster-enabled flags, so disabling
the controller leaves all cores online. -/
theorem active_toggle_online_all (s : State) (value : Int) (cfg : Config)
    (loads : Nat → Nat) (h : (decide (value ≠ 0)) ≠ s.active) :
    (active_store s value).online_all = true ∧
    (active_store s value).pending = 1 ∧
    (∀ c, c < 8 →
      (cluster_plug_work_fn cfg loads (active_store s value)).online c = true) ∧
    (cluster_plug_work_fn cfg loads (active_store s value)).big_cluster_enabled = true ∧
    (cluster_plug_work_fn cfg loads (active_store s value)).little_cluster_enabled = true := by
  have hst : active_store s value =
      { s with
        active := decide (value ≠ 0)
        online_all := true
        workqueue_suspended := false
        pending := 1 } := by
    unfold active_store
    rw [if_neg]
    simp only [beq_iff_eq]
    exact h
  rw [hst]
  obtain ⟨ho, hb, hl⟩ := work_fn_online_all_effect cfg loads
    { s with
      active := decide (value ≠ 0)
      online_all := true
      workqueue_suspended := false
      pending := 1 } rfl
  exact ⟨rfl, rfl, ho, hb, hl⟩

/-- C10 witness: disabling a running controller still onlines everything on
the follow-up tick. -/
theorem active_toggle_online_all_witness :
    (active_store enabledState 0).online_all = true ∧
    (active_store enabledState 0).pending = 1 ∧
    (cluster_plug_work_fn defaultConfig zeroLoads (active_store enabledState 0)).online 7 = true ∧
    (cluster_plug_work_fn defaultConfig zeroLoads (active_store enabledState 0)).big_cluster_enabled = true ∧
    (cluster_plug_work_fn defaultConfig zeroLoads (active_store enabledState 0)).little_cluster_enabled = true :=
  have r := active_toggle_online_all enabledState 0 defaultConfig zeroLoads (by decide)
  ⟨r.1, r.2.1, r.2.2.1 7 (by decide), r.2.2.2.1, r.2.2.2.2⟩

/-- C4 (counterexample): disabling the controller from a running state
returns with one work item still queued, and that tick then executes with an
observable effect (it onlines cpu 5, which was offline when the disable
returned) — contradicting the claim that no tick ever executes after
disablement returns. -/
theorem disable_then_tick_still_runs :
    (active_store mostOfflineState 0).active = false ∧
    (active_store mostOfflineState 0).pending = 1 ∧
    mostOfflineState.online 5 = false ∧
    (cluster_plug_work_fn defaultConfig zeroLoads
      (active_store mostOfflineState 0)).online 5 = true ∧
    (cluster_plug_work_fn defaultConfig zeroLoads
      (active_store mostOfflineState 0)).pending = 0 := by
  decide

/-- C4 (amended): disabling the controller flushes and cancels pending work
but queues exactly one new force-online-all work item before returning; that
single tick does not re-arm (no work remains after it), and while the
controller is disabled the work function never re-arms, so no tick runs
after that final one. -/
theorem disable_queues_one_final_tick (s : State) (cfg : Config)
    (loads : Nat → Nat) (h : s.active = true) :
    (active_store s 0).active = false ∧
    (active_store s 0).pending = 1 ∧
    (cluster_plug_work_fn cfg loads (active_store s 0)).pending = 0 ∧
    (∀ t : State, t.active = false →
      (cluster_plug_work_fn cfg loads t).pending = t.pending - 1) := by
  have hst : active_store s 0 =
      { s with
        active := false
        online_all := true
        workqueue_suspended := false
        pending := 1 } := by
    unfold active_store
    rw [if_neg]
    · rfl
    · rw [h]
      decide
  refine ⟨by rw [hst], by rw [hst], ?_, ?_⟩
  · rw [hst]
    have hp := work_fn_pending_inactive cfg loads
      { s with
        active := false
        online_all := true
        workqueue_suspended := false
        pending := 1 } rfl
    simpa using hp
  · intro t ht
    exact work_fn_pending_inactive cfg loads t ht

/-- C4 witness: the amended behavior at the boot state with the controller
enabled, plus the never-re-arms clause instantiated at the boot state. -/
theorem disable_queues_one_final_tick_witness :
    (active_store enabledState 0).active = false ∧
    (active_store enabledState 0).pending = 1 ∧
    (cluster_plug_work_fn defaultConfig zeroLoads (active_store enabledState 0)).pending = 0 ∧
    (cluster_plug_work_fn defaultConfig zeroLoads initState).pending = initState.pending - 1 :=
  have r := disable_queues_one_final_tick enabledState defaultConfig zeroLoads rfl
  ⟨r.1, r.2.1, r.2.2.1, r.2.2.2 initState rfl⟩

/-- C8: in every reachable state — so in particular whenever the periodic
tick runs with the controller active — cpu 0 is online, hence the online-cpu
count by which calculateLoad divides its load sum is positive and the
aggregation never divides by zero. -/
theorem aggregation_never_divides_by_zero (s : State) (h : Reachable s)
    (ha : s.active = true) :
    s.online 0 = true ∧ 0 < onlineCount s.online := by
  have h0 := reachable_online_zero s h
  refine ⟨h0, ?_⟩
  unfold onlineCount
  have hmem : (0 : Nat) ∈ present_cpus.filter (fun c => s.online c) :=
    List.mem_filter.mpr ⟨by decide, by simpa using h0⟩
  exact List.length_pos_of_mem hmem

/-- C8 witness: the state right after enabling the controller from boot. -/
theorem aggregation_never_divides_by_zero_witness :
    (active_store initState 1).online 0 = true ∧
    0 < onlineCount ((active_store initState 1).online) :=
  aggregation_never_divides_by_zero (active_store initState 1)
    (Reachable.set_active 1 initState Reachable.init) (by decide)

/-- C9: in every reachable state — hence after every completed configuration
write in any run — low_power_mode and screen_off_power_mode are never
simultaneously true: each store clears the other flag when setting its own,
and no other operation sets either. -/
theorem power_modes_mutually_exclusive (s : State) (h : Reachable s) :
    (s.low_power_mode && s.screen_off_power_mode) = false :=
  reachable_mode_exclusion s h

/-- C9 witness: the state right after writing low_power_mode = 1 at boot. -/
theorem power_modes_mutually_exclusive_witness :
    ((low_power_mode_store initState 1).low_power_mode &&
      (low_power_mode_store initState 1).screen_off_power_mode) = false :=
  power_modes_mutually_exclusive (low_power_mode_store initState 1)
    (Reachable.set_low_power 1 initState Reachable.init)

/-- C3 (counterexample): a write of 90 to load_threshold_down while
load_threshold_up holds its default 80 violates load_down < load_up, yet the
plain uint parameter setter accepts and stores it — no write validation
exists. -/
theorem invalid_threshold_write_accepted :
    (module_param_uint_store defaultConfig.load_threshold_down (Option.some 90)).2 = true ∧
    (module_param_uint_store defaultConfig.load_threshold_down (Option.some 90)).1 = 90 ∧
    ¬(90 < defaultConfig.load_threshold_up) := by
  decide

/-- C3 (amended): the uint parameters carry no value validation: a write is
rejected (prior value retained) only when integer parsing fails; any parsed
value is accepted; and an out-of-range max_cores_when_screen_off (0 or
above 4) is accepted but ignored at its only use, where
enable_little_required falls back to the cap of 4. -/
theorem uint_param_store_no_validation (old v : Nat) (cfg : Config) (s : State)
    (hm : cfg.max_cores_screenoff = 0 ∨ 4 < cfg.max_cores_screenoff) :
    module_param_uint_store old (Option.some v) = (v, true) ∧
    module_param_uint_store old Option.none = (old, false) ∧
    enable_little_required cfg s = 4 := by
  refine ⟨rfl, rfl, ?_⟩
  unfold enable_little_required
  split
  · rw [if_neg]
    simp only [Bool.and_eq_true, decide_eq_true_eq, not_and]
    intro h1 h2
    omega
  · rfl

/-- C3 witness: parsing accepted and rejected writes, and an out-of-range
cap of 9 ignored with the screen off. -/
theorem uint_param_store_no_validation_witness :
    module_param_uint_store 20 (Option.some 90) = (90, true) ∧
    module_param_uint_store 20 Option.none = (20, false) ∧
    enable_little_required { defaultConfig with max_cores_screenoff := 9 }
      { initState with screen_on := false } = 4 :=
  uint_param_store_no_validation 20 90
    { defaultConfig with max_cores_screenoff := 9 }
    { initState with screen_on := false } (Or.inr (by decide))

end ClusterPlug
